import Mathlib

/-!
Verification of the data-aggregation pipeline of the revenue dashboard
(src/app.py). The pandas dataframe operations of the script are shallowly
embedded as Lean functions over lists of records; each claim about the
specification is then settled against these definitions.

Conventions of the embedding:
* a dataframe is a `List Row` in row order;
* a nullable column value (NaN / NaT) is an `Option`;
* `pd.to_datetime(..., errors='coerce')` has already produced the
  `Option Date` fields of `Row`; a parse failure is `none`;
* monetary amounts are `ℚ` (exact arithmetic in place of float);
* `groupby` follows the pandas defaults: null keys are dropped
  (`dropna=True`) and group keys are emitted in ascending order
  (`sort=True`).
-/

namespace RevenueDashboard

/-- A calendar date as carried by a day-resolution `pd.Timestamp`. -/
structure Date where
  Year : Nat
  Month : Nat
  Day : Nat
  deriving DecidableEq

/-- Chronological (lexicographic year, month, day) order on dates; this is the
order a timestamp column is sorted by. -/
def Date.le (a b : Date) : Prop :=
  a.Year < b.Year ∨
    (a.Year = b.Year ∧ (a.Month < b.Month ∨ (a.Month = b.Month ∧ a.Day ≤ b.Day)))

instance : DecidableRel Date.le := fun a b => by
  unfold Date.le; infer_instance

instance : IsTotal Date Date.le :=
  ⟨fun a b => by unfold Date.le; omega⟩

instance : IsTrans Date Date.le :=
  ⟨fun a b c h1 h2 => by unfold Date.le at *; omega⟩

theorem Date.le_antisymm : ∀ {a b : Date}, Date.le a b → Date.le b a → a = b := by
  rintro ⟨y1, m1, d1⟩ ⟨y2, m2, d2⟩ h1 h2
  simp only [Date.le] at h1 h2
  simp only [Date.mk.injEq]
  omega

/-- One row of the cleaned dataset produced by `load_data` (lines 13-22 of
src/app.py): column names already normalized, `Signup_Date` and `Last_Login`
already parsed day-first with `errors='coerce'` (so an unparseable value is
`none`). `Days_Since_Last_Login` depends on the processing instant and is
presentation-only; it is not modelled. -/
structure Row where
  User_ID : Option String
  Username : String
  Country : Option String
  Device_Type : Option String
  Subscription_Tier : Option String
  Preferred_Game_Mode : Option String
  Signup_Date : Option Date
  Last_Login : Option Date
  Total_Revenue_USD : ℚ
  Avg_Session_Duration_Min : Option ℚ
  Total_Play_Sessions : Nat
  deriving DecidableEq

/-- Zero-padded two-digit rendering of a number, as strftime and Period do. -/
def pad2 (n : Nat) : String :=
  if n < 10 then "0" ++ toString n else toString n

/-- Zero-padded four-digit year rendering. -/
def pad4 (n : Nat) : String :=
  if n < 10 then "000" ++ toString n
  else if n < 100 then "00" ++ toString n
  else if n < 1000 then "0" ++ toString n
  else toString n

/-- Gregorian leap-year rule. -/
def isLeap (y : Nat) : Bool :=
  (y % 4 == 0 && y % 100 != 0) || (y % 400 == 0)

/-- Length of month `m` of year `y`. -/
def daysInMonth (y m : Nat) : Nat :=
  if m = 2 then (if isLeap y then 29 else 28)
  else if m = 4 ∨ m = 6 ∨ m = 9 ∨ m = 11 then 30
  else 31

/-- One-based ordinal of the date within its year. -/
def dayOfYear (d : Date) : Nat :=
  (List.range (d.Month - 1)).foldl (fun acc i => acc + daysInMonth d.Year (i + 1)) 0 + d.Day

/-- Day of the week with Sunday as 0, by the Zeller congruence. -/
def dayOfWeekSun (d : Date) : Nat :=
  let m := if d.Month ≤ 2 then d.Month + 12 else d.Month
  let y := if d.Month ≤ 2 then d.Year - 1 else d.Year
  let h := (d.Day + 13 * (m + 1) / 5 + y % 100 + y % 100 / 4 + y / 100 / 4 + 5 * (y / 100)) % 7
  (h + 6) % 7

/-- Sunday-based week-of-year number (strftime directive %U): days before the
first Sunday of the year are week 0. -/
def weekOfYear (d : Date) : Nat :=
  (dayOfYear d - 1 + 7 - dayOfWeekSun d) / 7

/-- Line 18: the column `df['Login_Date'] = df['Last_Login'].dt.date`. At day
resolution taking `.dt.date` is the identity, and `NaT` stays null. -/
def Login_Date (r : Row) : Option Date := r.Last_Login

/-- Line 19: the column `df['Week'] = df['Last_Login'].dt.strftime(...)` with
format %Y-%U. `strftime` maps `NaT` to `NaN`, so the column stays nullable and
null propagates. -/
def Week (r : Row) : Option String :=
  r.Last_Login.map (fun d => pad4 d.Year ++ "-" ++ pad2 (weekOfYear d))

/-- Line 20: the column `df['Month'] = df['Last_Login'].dt.to_period('M').astype(str)`.
`astype(str)` renders a missing period as the STRING "NaT", so this column is
never null: a null `Last_Login` yields the sentinel string "NaT" rather than a
null that `groupby` would drop. -/
def Month (r : Row) : String :=
  match r.Last_Login with
  | none => "NaT"
  | some d => pad4 d.Year ++ "-" ++ pad2 d.Month

/-- `Series.isin(values)` for a nullable string column and a list of selected
(non-null) values: a null entry is a member of no selection. -/
def isin (v : Option String) (values : List String) : Bool :=
  match v with
  | none => false
  | some s => decide (s ∈ values)

/-- Line 36: `filtered_df = df[(df["Country"].isin(selected_country)) &
(df["Device_Type"].isin(selected_device))]`. -/
def filtered_df (df : List Row) (selected_country selected_device : List String) : List Row :=
  df.filter (fun r => isin r.Country selected_country && isin r.Device_Type selected_device)

/-- Line 44: `filtered_df['User_ID'].nunique()` — the number of distinct
non-null user ids. -/
def totalUsers (df : List Row) : Nat :=
  ((df.filterMap Row.User_ID).dedup).length

/-- Line 45: `filtered_df['Total_Revenue_USD'].sum()`. -/
def totalRevenue (df : List Row) : ℚ :=
  (df.map Row.Total_Revenue_USD).sum

/-- Line 46: `filtered_df['Avg_Session_Duration_Min'].mean()` — the mean of the
non-null values; pandas yields `NaN` (here `none`, displayed as no numeric
value) when there is none to average. -/
def avgSessionDuration (df : List Row) : Option ℚ :=
  let vals := df.filterMap Row.Avg_Session_Duration_Min
  if vals.length = 0 then none else some (vals.sum / (vals.length : ℚ))

/-- `view.groupby(key)['User_ID'].nunique().reset_index(...)`: the group keys
are the distinct non-null key values in ascending order (pandas defaults
`dropna=True`, `sort=True`), each paired with the distinct non-null `User_ID`
count of its group. -/
def groupNuniqueUsers {K : Type} [DecidableEq K] (r : K → K → Prop) [DecidableRel r]
    (key : Row → Option K) (df : List Row) : List (K × Nat) :=
  (((df.filterMap key).dedup).insertionSort r).map
    (fun k => (k, totalUsers (df.filter (fun row => key row = some k))))

/-- Line 53: `dau = filtered_df.groupby('Login_Date')['User_ID'].nunique()...`. -/
def dau (df : List Row) : List (Date × Nat) :=
  groupNuniqueUsers Date.le Login_Date df

/-- Line 54: `wau = filtered_df.groupby('Week')['User_ID'].nunique()...`. -/
def wau (df : List Row) : List (String × Nat) :=
  groupNuniqueUsers (· ≤ ·) Week df

/-- Line 55: `monthly_active_users = df.groupby('Month')['User_ID'].nunique()...` —
grouped on the never-null `Month` string column of the UNfiltered `df`. -/
def monthly_active_users (df : List Row) : List (String × Nat) :=
  groupNuniqueUsers (· ≤ ·) (fun r => some (Month r)) df

/-- Line 78: `revenue_by_signup = df.dropna(subset=['Signup_Date']).copy()`.
Line 79 re-parses the already-parsed column, which is the identity here. -/
def revenue_by_signup (df : List Row) : List Row :=
  df.filter (fun r => r.Signup_Date.isSome)

/-- `Series.cumsum()` from a running accumulator: each output element is the sum
of the input elements up to and including its position. -/
def cumsum (acc : ℚ) : List ℚ → List ℚ
  | [] => []
  | x :: xs => (acc + x) :: cumsum (acc + x) xs

/-- The summed `Total_Revenue_USD` of the rows with signup date `k`. -/
def revenueOn (rows : List Row) (k : Date) : ℚ :=
  ((rows.filter (fun r => r.Signup_Date = some k)).map Row.Total_Revenue_USD).sum

/-- Lines 80-81: `revenue_by_signup.groupby('Signup_Date')['Total_Revenue_USD']
.sum().sort_index().cumsum().reset_index()` — the distinct signup dates in
ascending order (`groupby` sorts its keys; `sort_index` keeps them so), each
paired with the running sum of the per-date revenue sums. -/
def daily_revenue (df : List Row) : List (Date × ℚ) :=
  ((((revenue_by_signup df).filterMap Row.Signup_Date).dedup).insertionSort Date.le).zip
    (cumsum 0 (((((revenue_by_signup df).filterMap Row.Signup_Date).dedup).insertionSort
      Date.le).map (revenueOn (revenue_by_signup df))))

/-- Ascending order of (date, amount) pairs by their date component. -/
def bySignupDate (a b : Date × ℚ) : Prop := Date.le a.1 b.1

instance : DecidableRel bySignupDate := fun a b =>
  inferInstanceAs (Decidable (Date.le a.1 b.1))

instance : IsTotal (Date × ℚ) bySignupDate :=
  ⟨fun a b => IsTotal.total (r := Date.le) a.1 b.1⟩

instance : IsTrans (Date × ℚ) bySignupDate :=
  ⟨fun a b c h1 h2 => IsTrans.trans (r := Date.le) a.1 b.1 c.1 h1 h2⟩

/-- Strict version of `bySignupDate`, used to identify two sorted pair lists
whose date components are distinct. -/
def bySignupDateStrict (a b : Date × ℚ) : Prop := Date.le a.1 b.1 ∧ a.1 ≠ b.1

instance : IsAntisymm (Date × ℚ) bySignupDateStrict :=
  ⟨fun _ _ h1 h2 => absurd (Date.le_antisymm h1.1 h2.1) h1.2⟩

/-- Replace each second component by the running sum accumulated so far. -/
def runningSum (acc : ℚ) : List (Date × ℚ) → List (Date × ℚ)
  | [] => []
  | (d, s) :: t => (d, acc + s) :: runningSum (acc + s) t

/-- Follows the words of the specification of `cumulativeRevenueBySignup`
(spec section 4.3): restrict to rows with non-null `Signup_Date`; group-sum
`Total_Revenue_USD` per date; sort the (date, sum) pairs ascending by date;
then take the running prefix sum across the sorted sequence. Stated separately
from `daily_revenue` (the embedding of lines 78-81) so that the two can be
compared. -/
def cumulativeRevenueBySignup (df : List Row) : List (Date × ℚ) :=
  runningSum 0
    (((((df.filter (fun r => r.Signup_Date.isSome)).filterMap Row.Signup_Date).dedup).map
      (fun k => (k, revenueOn (df.filter (fun r => r.Signup_Date.isSome)) k))).insertionSort
      bySignupDate)

/-- `view.groupby(col)['Total_Revenue_USD'].sum().reset_index()` (lines 103,
107, 111): the distinct non-null segment values in ascending order (null keys
dropped by the `groupby` default `dropna=True`), each paired with the summed
revenue of its group. -/
def revenueBySegment (key : Row → Option String) (df : List Row) : List (String × ℚ) :=
  (((df.filterMap key).dedup).insertionSort (· ≤ ·)).map
    (fun k => (k, ((df.filter (fun r => key r = some k)).map Row.Total_Revenue_USD).sum))

/-- Line 103: `rev_device = filtered_df.groupby('Device_Type')['Total_Revenue_USD'].sum()...`. -/
def rev_device (df : List Row) : List (String × ℚ) :=
  revenueBySegment Row.Device_Type df

/-- Line 107: `rev_tier = filtered_df.groupby('Subscription_Tier')[...].sum()...`. -/
def rev_tier (df : List Row) : List (String × ℚ) :=
  revenueBySegment Row.Subscription_Tier df

/-- Line 111: `rev_mode = filtered_df.groupby('Preferred_Game_Mode')[...].sum()...`. -/
def rev_mode (df : List Row) : List (String × ℚ) :=
  revenueBySegment Row.Preferred_Game_Mode df

/-- Descending-by-revenue order on rows: `a` may precede `b` when the revenue
of `a` is at least that of `b`. -/
def revDesc (a b : Row) : Prop := b.Total_Revenue_USD ≤ a.Total_Revenue_USD

instance : DecidableRel revDesc := fun a b =>
  inferInstanceAs (Decidable (b.Total_Revenue_USD ≤ a.Total_Revenue_USD))

instance : IsTotal Row revDesc := ⟨fun a b => le_total b.Total_Revenue_USD a.Total_Revenue_USD⟩

instance : IsTrans Row revDesc := ⟨fun _ _ _ h1 h2 => le_trans h2 h1⟩

/-- The contract of line 118, `filtered_df.sort_values(by='Total_Revenue_USD',
ascending=False)` with the pandas default `kind='quicksort'`: the kernel
argsort promises only a sorted permutation — numpy documents the quicksort
kind as unstable, so the relative order of rows of EQUAL revenue is
implementation-defined. Line 118 is therefore embedded not as one function but
as the set of its admissible realizations: any function returning a
permutation of the view that is nonincreasing in revenue. Properties that the
program actually guarantees are the ones provable for every realization. -/
def RealizesSortDesc (σ : List Row → List Row) : Prop :=
  ∀ df : List Row, List.Perm (σ df) df ∧ List.Sorted revDesc (σ df)

/-- One admissible realization of the line-118 sort, used only to give the
concrete pipeline model an output: the stable descending sort (what the
reverse/argsort/reverse construction inside pandas produces whenever numpy
falls back to its stable small-array insertion sort). Its tie order is NOT a
guarantee of the program, and no theorem below relies on it. -/
def sort_values_desc (df : List Row) : List Row :=
  df.insertionSort revDesc

/-- `sort_values(...).head(n)` under a realization `σ` of the sort contract:
the first `n` rows of the realized descending sort. Line 118 instantiates
`n = 10`. -/
def topUsersByRevenueWith (σ : List Row → List Row) (df : List Row) (n : Nat) : List Row :=
  (σ df).take n

/-- The pipeline instance of the top-`n` ranking, under the sample
realization. -/
def topUsersByRevenue (df : List Row) (n : Nat) : List Row :=
  topUsersByRevenueWith sort_values_desc df n

/-- Line 118: `top_10 = filtered_df.sort_values(by='Total_Revenue_USD',
ascending=False).head(10)`, under the sample realization. -/
def top_10 (df : List Row) : List Row :=
  topUsersByRevenue df 10

/-- An admissible realization of the descending sort whose tie order is the
REVERSE of the original row order: reverse the view, then sort it stably. An
unstable kernel (the numpy default quicksort above its small-array cutoff) is
free to produce exactly this output. -/
def sortDescTiesReversed (df : List Row) : List Row :=
  df.reverse.insertionSort revDesc

/-- Everything the script body computes and hands to the presentation layer
once the empty-dataset guard has been passed. -/
structure Outputs where
  total_users : Nat
  total_revenue : ℚ
  avg_session : Option ℚ
  dauOut : List (Date × Nat)
  wauOut : List (String × Nat)
  mau : List (String × Nat)
  cumrev : List (Date × ℚ)
  by_device : List (String × ℚ)
  by_tier : List (String × ℚ)
  by_mode : List (String × ℚ)
  high_value : List Row
  deriving DecidableEq

/-- One full pass of the script body (lines 24-121): `load_data` has produced
`df`; lines 25-26 run `st.stop()` when `df` is empty, which halts the script
before any filter, aggregate or display step — modelled as `none`. Otherwise
every output is computed, the country and device selections reaching only the
computations made from `filtered_df` (the monthly active users of line 55 and
the cumulative revenue of lines 78-81 are computed from the unfiltered `df`). -/
def runDashboard (df : List Row) (selected_country selected_device : List String) :
    Option Outputs :=
  if df.isEmpty then none
  else
    let f := filtered_df df selected_country selected_device
    some ⟨totalUsers f, totalRevenue f, avgSessionDuration f, dau f, wau f,
          monthly_active_users df, daily_revenue df, rev_device f, rev_tier f,
          rev_mode f, top_10 f⟩

/-- Scenario row: user A, country US, device Mobile, revenue 10. -/
def rA1 : Row := ⟨some "A", "a", some "US", some "Mobile", none, none, none, none, 10, none, 0⟩

/-- Scenario row: user B, country US, device Desktop, revenue 20. -/
def rB : Row := ⟨some "B", "b", some "US", some "Desktop", none, none, none, none, 20, none, 0⟩

/-- Scenario row: user A again, country FR, device Mobile, revenue 5. -/
def rA2 : Row := ⟨some "A", "a", some "FR", some "Mobile", none, none, none, none, 5, none, 0⟩

/-- A record whose `Last_Login` failed to parse (is null). -/
def rowNullLogin : Row := ⟨some "u1", "n", some "US", some "Mobile", none, none, none, none, 0, none, 0⟩

/-- A record with a parsed `Last_Login` of 2024-01-15. -/
def rowLogin : Row := ⟨some "u1", "l", none, none, none, none, none, some ⟨2024, 1, 15⟩, 0, none, 0⟩

/-- A record whose `Device_Type` is null but that carries revenue 5. -/
def rowNullDevice : Row := ⟨some "u2", "d", some "US", none, none, none, none, none, 5, none, 0⟩

/-- A record with a parsed `Signup_Date` of 2024-02-01 and revenue 10. -/
def rowSignup : Row := ⟨some "u9", "s", none, none, none, none, some ⟨2024, 2, 1⟩, none, 10, none, 0⟩

/-- First of two distinct records with equal revenue 7. -/
def tieA : Row := ⟨some "t1", "ta", none, none, none, none, none, none, 7, none, 0⟩

/-- Second of two distinct records with equal revenue 7. -/
def tieB : Row := ⟨some "t2", "tb", none, none, none, none, none, none, 7, none, 0⟩

example : Month ⟨none, "a", none, none, none, none, none, none, 0, none, 0⟩ = "NaT" := rfl

example : Month ⟨none, "a", none, none, none, none, none, some ⟨2024, 3, 7⟩, 0, none, 0⟩ = "2024-03" := rfl

example :
    monthly_active_users [⟨some "u1", "a", none, none, none, none, none, none, 0, none, 0⟩] =
      [("NaT", 1)] := by decide

example : totalRevenue (filtered_df [rA1, rB, rA2] ["US"] ["Mobile", "Desktop"]) = 30 := by
  simp +decide [totalRevenue, filtered_df, isin, rA1, rB, rA2]
  norm_num

example : totalUsers (filtered_df [rA1, rB, rA2] ["US"] ["Mobile", "Desktop"]) = 2 := by decide

example : rev_device [rA1, rB, rA2] = [("Desktop", 20), ("Mobile", 15)] := by
  simp +decide [rev_device, revenueBySegment, rA1, rB, rA2, List.dedup_cons_of_mem,
    List.dedup_cons_of_not_mem, List.insertionSort, List.orderedInsert]
  norm_num
example : top_10 [rA1, rB, rA2] = [rB, rA1, rA2] := by decide
example : top_10 [rA1, rA2, rB] = [rB, rA1, rA2] := by decide

/-- Rows on which the grouping key is null contribute nothing to the key
column. -/
theorem filterMap_filter_isSome {K : Type} (f : Row → Option K) (df : List Row) :
    (df.filter (fun r => (f r).isSome)).filterMap f = df.filterMap f := by
  induction df with
  | nil => rfl
  | cons r t ih => cases h : f r <;> simp [List.filter_cons, List.filterMap_cons, h, ih]

/-- Restricting first to the rows with a non-null key does not change a
per-key group. -/
theorem filter_key_filter_isSome {K : Type} [DecidableEq K] (f : Row → Option K)
    (df : List Row) (k : K) :
    (df.filter (fun r => (f r).isSome)).filter (fun r => f r = some k) =
      df.filter (fun r => f r = some k) := by
  induction df with
  | nil => rfl
  | cons r t ih => cases h : f r <;> simp [List.filter_cons, h, ih]

/-- A grouped nunique aggregation ignores the rows whose grouping key is
null: deleting them changes neither the group keys nor any count. -/
theorem groupNuniqueUsers_filter_isSome {K : Type} [DecidableEq K] (r : K → K → Prop)
    [DecidableRel r] (key : Row → Option K) (df : List Row) :
    groupNuniqueUsers r key (df.filter (fun row => (key row).isSome)) =
      groupNuniqueUsers r key df := by
  unfold groupNuniqueUsers
  rw [filterMap_filter_isSome]
  refine List.map_congr_left (fun k _ => ?_)
  rw [filter_key_filter_isSome]

/-- Membership reading of `isin`. -/
theorem isin_iff {v : Option String} {l : List String} :
    isin v l = true ↔ ∃ s, v = some s ∧ s ∈ l := by
  cases v <;> simp [isin]

/-- C1 (amended): a record whose `Last_Login` is null contributes no row to any
`Login_Date` or `Week` bucket (deleting all such records leaves `dau` and `wau`
unchanged), but in the `Month` grouping used for monthly active users it is
coerced into the sentinel string bucket "NaT", which then appears among the
group keys. -/
theorem null_login_bucket_exclusion (df : List Row) :
    dau df = dau (df.filter (fun r => r.Last_Login.isSome)) ∧
    wau df = wau (df.filter (fun r => r.Last_Login.isSome)) ∧
    ∀ r ∈ df, r.Last_Login = none → "NaT" ∈ (monthly_active_users df).map Prod.fst := by
  refine ⟨?_, ?_, ?_⟩
  · exact (groupNuniqueUsers_filter_isSome Date.le Login_Date df).symm
  · have hpt : ∀ row : Row, (Week row).isSome = row.Last_Login.isSome := by
      intro row; cases h : row.Last_Login <;> simp [Week, h]
    have := (groupNuniqueUsers_filter_isSome (· ≤ ·) Week df).symm
    rwa [List.filter_congr (fun row _ => hpt row)] at this
  · intro r hr hnull
    have hMonth : Month r = "NaT" := by simp [Month, hnull]
    unfold monthly_active_users groupNuniqueUsers
    rw [List.map_map]
    have : "NaT" ∈ (df.filterMap (fun row => some (Month row))).dedup := by
      rw [List.mem_dedup, List.mem_filterMap]
      exact ⟨r, hr, by rw [hMonth]⟩
    simpa using (List.mem_insertionSort (· ≤ ·)).mpr this

/-- C1 counterexample: the single record has a null `Last_Login`, yet the Month
grouping of monthly active users gives it a sentinel "NaT" bucket row; deleting
the null-login record changes the Month aggregation, so such records are not
excluded from that grouping. -/
theorem null_login_month_sentinel_counterexample :
    rowNullLogin.Last_Login = none ∧
    monthly_active_users [rowNullLogin] = [("NaT", 1)] ∧
    monthly_active_users ([rowNullLogin].filter (fun r => r.Last_Login.isSome)) = [] := by
  exact ⟨rfl, by decide, by decide⟩

/-- C1 witness: the amended theorem applied to the concrete one-record dataset
whose `Last_Login` is null. -/
theorem null_login_bucket_exclusion_witness :
    "NaT" ∈ (monthly_active_users [rowNullLogin]).map Prod.fst :=
  (null_login_bucket_exclusion [rowNullLogin]).2.2 rowNullLogin (by decide) rfl

/-- C2: the filter keeps exactly the rows whose `Country` is a member of the
selected country list AND whose `Device_Type` is a member of the selected
device list; an empty selection on either side yields the empty result (no
implicit match-all), and a row with null `Country` or null `Device_Type`
matches no selection. -/
theorem filter_engine_exact (df : List Row) (cs ds : List String) :
    (∀ r, r ∈ filtered_df df cs ds ↔
      r ∈ df ∧ (∃ c, r.Country = some c ∧ c ∈ cs) ∧ (∃ d, r.Device_Type = some d ∧ d ∈ ds)) ∧
    filtered_df df [] ds = [] ∧ filtered_df df cs [] = [] ∧
    ∀ r ∈ df, (r.Country = none ∨ r.Device_Type = none) → r ∉ filtered_df df cs ds := by
  have hmem : ∀ r, r ∈ filtered_df df cs ds ↔
      r ∈ df ∧ (∃ c, r.Country = some c ∧ c ∈ cs) ∧ (∃ d, r.Device_Type = some d ∧ d ∈ ds) := by
    intro r
    simp [filtered_df, List.mem_filter, isin_iff]
  refine ⟨hmem, ?_, ?_, ?_⟩
  · refine List.filter_eq_nil_iff.mpr (fun r _ => ?_)
    cases r.Country <;> simp [isin]
  · refine List.filter_eq_nil_iff.mpr (fun r _ => ?_)
    cases r.Device_Type <;> simp [isin]
  · intro r _ hnull hmem'
    rcases (hmem r).mp hmem' with ⟨_, ⟨c, hc, _⟩, ⟨d, hd, _⟩⟩
    cases hnull with
    | inl h => rw [h] at hc; exact Option.noConfusion hc
    | inr h => rw [h] at hd; exact Option.noConfusion hd

/-- C2 witness: the characterization applied at a concrete dataset, selection
and row. -/
theorem filter_engine_exact_witness :
    rA1 ∈ filtered_df [rA1, rB, rA2] ["US"] ["Mobile", "Desktop"] :=
  ((filter_engine_exact [rA1, rB, rA2] ["US"] ["Mobile", "Desktop"]).1 rA1).mpr
    ⟨by decide, ⟨"US", rfl, by decide⟩, ⟨"Mobile", rfl, by decide⟩⟩

/-- C3: two runs of the dashboard body on the same dataset with any two
country/device selections produce the same monthly-active-users sequence: the
metric is computed from the unfiltered dataset, so the filter inputs cannot
influence it. -/
theorem mau_noninterference (df : List Row) (cs1 ds1 cs2 ds2 : List String) :
    (runDashboard df cs1 ds1).map Outputs.mau = (runDashboard df cs2 ds2).map Outputs.mau := by
  cases df <;> simp [runDashboard]

/-- C7: every aggregate of the dashboard returns the identity of its operation
on the empty view: zero users, zero revenue, empty grouped sequences — and the
session-duration mean is `none` (pandas NaN: no numeric value, i.e. no data). -/
theorem empty_view_identities :
    totalUsers [] = 0 ∧ totalRevenue [] = 0 ∧ avgSessionDuration [] = none ∧
    dau [] = [] ∧ wau [] = [] ∧ monthly_active_users [] = [] ∧
    daily_revenue [] = [] ∧ rev_device [] = [] ∧ rev_tier [] = [] ∧
    rev_mode [] = [] ∧ top_10 [] = [] := by
  decide

/-- The distinct-user count of any filtered view is at most that of the whole
view. -/
theorem totalUsers_filter_le (q : Row → Bool) (df : List Row) :
    totalUsers (df.filter q) ≤ totalUsers df := by
  unfold totalUsers
  rw [← List.card_toFinset, ← List.card_toFinset]
  refine Finset.card_le_card (fun x hx => ?_)
  rw [List.mem_toFinset, List.mem_filterMap] at hx ⊢
  rcases hx with ⟨r, hr, hid⟩
  exact ⟨r, (List.mem_filter.mp hr).1, hid⟩

/-- C9: no bucket of the daily or weekly active-user groupings reports a
distinct-user count exceeding the distinct non-null `User_ID` count of the
whole dataset. -/
theorem bucket_counts_bounded (df : List Row) :
    (∀ p ∈ dau df, p.2 ≤ totalUsers df) ∧ (∀ p ∈ wau df, p.2 ≤ totalUsers df) := by
  constructor <;>
  · intro p hp
    simp only [dau, wau, groupNuniqueUsers] at hp
    rcases List.mem_map.mp hp with ⟨k, _, rfl⟩
    exact totalUsers_filter_le _ df

/-- C9 witness: the bound applied to the one concrete bucket of a one-record
dataset. -/
theorem bucket_counts_bounded_witness :
    ((⟨2024, 1, 15⟩, 1) : Date × Nat).2 ≤ totalUsers [rowLogin] :=
  (bucket_counts_bounded [rowLogin]).1 _ (by decide)

/-- Every entry of a running sum over nonnegative increments is at least the
starting accumulator. -/
theorem le_mem_cumsum {xs : List ℚ} (hx : ∀ x ∈ xs, 0 ≤ x) :
    ∀ {a : ℚ}, ∀ y ∈ cumsum a xs, a ≤ y := by
  induction xs with
  | nil => intro a y hy; simp [cumsum] at hy
  | cons x t ih =>
    intro a y hy
    simp only [cumsum, List.mem_cons] at hy
    have h0 : 0 ≤ x := hx x (List.mem_cons_self x t)
    rcases hy with h | h
    · subst h; linarith
    · have := ih (fun z hz => hx z (List.mem_cons_of_mem _ hz)) y h
      linarith

/-- A running sum over nonnegative increments is nondecreasing. -/
theorem cumsum_sorted {xs : List ℚ} (hx : ∀ x ∈ xs, 0 ≤ x) :
    ∀ a : ℚ, List.Sorted (· ≤ ·) (cumsum a xs) := by
  induction xs with
  | nil => intro a; simp [cumsum]
  | cons x t ih =>
    intro a
    have htail : ∀ z ∈ t, (0:ℚ) ≤ z := fun z hz => hx z (List.mem_cons_of_mem _ hz)
    simp only [cumsum]
    rw [List.sorted_cons]
    exact ⟨fun b hb => le_mem_cumsum htail b hb, ih htail (a + x)⟩

/-- `cumsum` preserves length. -/
theorem cumsum_length : ∀ (xs : List ℚ) (a : ℚ), (cumsum a xs).length = xs.length
  | [], _ => rfl
  | x :: t, a => by simp [cumsum, cumsum_length t (a + x)]

/-- The second components of the cumulative-revenue series are exactly the
running sums of the sorted per-date revenue sums. -/
theorem daily_revenue_snd (df : List Row) :
    (daily_revenue df).map Prod.snd =
      cumsum 0 ((((revenue_by_signup df).filterMap Row.Signup_Date).dedup.insertionSort
        Date.le).map (revenueOn (revenue_by_signup df))) := by
  unfold daily_revenue
  apply List.map_snd_zip
  rw [cumsum_length, List.length_map]

/-- C8: assuming every revenue amount in the dataset is nonnegative, the
cumulative component of the cumulative-revenue-by-signup sequence is
nondecreasing as the sequence progresses. -/
theorem cumulative_revenue_monotone (df : List Row)
    (h : ∀ r ∈ df, 0 ≤ r.Total_Revenue_USD) :
    List.Sorted (· ≤ ·) ((daily_revenue df).map Prod.snd) := by
  rw [daily_revenue_snd]
  refine cumsum_sorted (fun x hx => ?_) 0
  rcases List.mem_map.mp hx with ⟨k, _, rfl⟩
  unfold revenueOn
  refine List.sum_nonneg (fun v hv => ?_)
  rcases List.mem_map.mp hv with ⟨r, hr, rfl⟩
  have hr1 : r ∈ revenue_by_signup df := (List.mem_filter.mp hr).1
  exact h r (List.mem_filter.mp hr1).1

/-- C8 witness: the monotonicity applied to a concrete one-record dataset with
nonnegative revenue. -/
theorem cumulative_revenue_monotone_witness :
    (∀ r ∈ [rowSignup], (0:ℚ) ≤ r.Total_Revenue_USD) ∧
    List.Sorted (· ≤ ·) ((daily_revenue [rowSignup]).map Prod.snd) :=
  ⟨by decide, cumulative_revenue_monotone [rowSignup] (by decide)⟩

/-- The sample realization satisfies the sort contract of line 118. -/
theorem sort_values_desc_realizes : RealizesSortDesc sort_values_desc :=
  fun df => ⟨List.perm_insertionSort revDesc df, List.sorted_insertionSort revDesc df⟩

/-- C5 counterexample: line 118 sorts with the pandas default quicksort kind,
whose only contract is a nonincreasing-by-revenue permutation of the view —
numpy documents the kind as unstable, leaving the order of equal revenues
implementation-defined. `sortDescTiesReversed` satisfies that contract in
full, yet on the concrete two-row view of distinct equal-revenue records it
returns them in REVERSED original order; so the program does not guarantee
that revenue ties are broken by original row order. -/
theorem tie_order_unspecified_counterexample :
    RealizesSortDesc sortDescTiesReversed ∧
    tieA.Total_Revenue_USD = tieB.Total_Revenue_USD ∧ tieA ≠ tieB ∧
    sortDescTiesReversed [tieA, tieB] = [tieB, tieA] ∧
    [tieB, tieA] ≠ [tieA, tieB] := by
  refine ⟨fun df => ⟨(List.perm_insertionSort revDesc df.reverse).trans df.reverse_perm,
    List.sorted_insertionSort revDesc df.reverse⟩, rfl, by decide, by decide, by decide⟩

/-- C5 (amended): under EVERY admissible realization of the line-118 sort —
any sorted-descending permutation of the view, which is all the default
quicksort kind guarantees — the top-users ranking has length `min n |view|`,
is sorted descending by revenue, and is the `n`-prefix of the realized sort;
the order of revenue ties is implementation-defined rather than the original
row order. The `head(10)` of line 118 is the `n = 10` instance under the
sample realization, and the embedding is a pure function of the view, so the
view is never mutated. -/
theorem top_users_by_revenue_amended (σ : List Row → List Row)
    (hσ : RealizesSortDesc σ) (df : List Row) (n : Nat) :
    (topUsersByRevenueWith σ df n).length = min n df.length ∧
    List.Sorted revDesc (topUsersByRevenueWith σ df n) ∧
    topUsersByRevenueWith σ df n = (σ df).take n ∧
    top_10 df = topUsersByRevenueWith sort_values_desc df 10 := by
  obtain ⟨hperm, hsorted⟩ := hσ df
  refine ⟨?_, ?_, rfl, rfl⟩
  · simp [topUsersByRevenueWith, hperm.length_eq]
  · exact List.Pairwise.sublist (List.take_sublist n _) hsorted

/-- C5 witness: the amended theorem applied to a concrete realization, view
and length, the contract hypothesis discharged by `sort_values_desc_realizes`. -/
theorem top_users_by_revenue_amended_witness :
    (topUsersByRevenueWith sort_values_desc [rA1, rB] 1).length = min 1 [rA1, rB].length ∧
    List.Sorted revDesc (topUsersByRevenueWith sort_values_desc [rA1, rB] 1) ∧
    topUsersByRevenueWith sort_values_desc [rA1, rB] 1 = (sort_values_desc [rA1, rB]).take 1 ∧
    top_10 [rA1, rB] = topUsersByRevenueWith sort_values_desc [rA1, rB] 10 :=
  top_users_by_revenue_amended sort_values_desc sort_values_desc_realizes [rA1, rB] 1

/-- Keys become pairs: zipping the keys with the running sums of their values
is the running sum of the tagged pair list. -/
theorem zip_cumsum_runningSum (f : Date → ℚ) :
    ∀ (ks : List Date) (a : ℚ),
      ks.zip (cumsum a (ks.map f)) = runningSum a (ks.map (fun k => (k, f k)))
  | [], _ => rfl
  | k :: t, a => by
    simp only [List.map_cons, cumsum, List.zip_cons_cons, runningSum]
    exact congrArg _ (zip_cumsum_runningSum f t (a + f k))

/-- Sorting key-tagged pairs by date equals tagging the sorted keys, when the
keys are distinct. -/
theorem insertionSort_map_key (f : Date → ℚ) (ks : List Date) (hnd : ks.Nodup) :
    (ks.map (fun k => (k, f k))).insertionSort bySignupDate =
      (ks.insertionSort Date.le).map (fun k => (k, f k)) := by
  have hperm1 : List.Perm ((ks.map (fun k => (k, f k))).insertionSort bySignupDate)
      (ks.map (fun k => (k, f k))) := List.perm_insertionSort _ _
  have hperm2 : List.Perm ((ks.insertionSort Date.le).map (fun k => (k, f k)))
      (ks.map (fun k => (k, f k))) := (List.perm_insertionSort _ _).map _
  have hfst : ∀ l : List Date, (l.map (fun k => (k, f k))).map Prod.fst = l := by
    intro l; rw [List.map_map]; exact List.map_id _
  have hnd1 : List.Nodup
      (((ks.map (fun k => (k, f k))).insertionSort bySignupDate).map Prod.fst) := by
    refine ((hperm1.map Prod.fst).nodup_iff).mpr ?_
    rw [hfst]; exact hnd
  have hnd2 : List.Nodup
      (((ks.insertionSort Date.le).map (fun k => (k, f k))).map Prod.fst) := by
    rw [hfst]
    exact (List.perm_insertionSort Date.le ks).nodup_iff.mpr hnd
  have hs1 : ((ks.map (fun k => (k, f k))).insertionSort bySignupDate).Pairwise
      bySignupDateStrict := by
    have hsorted := List.sorted_insertionSort bySignupDate (ks.map (fun k => (k, f k)))
    have hne := List.pairwise_map.mp hnd1
    exact (List.Pairwise.and hsorted hne).imp (fun h => ⟨h.1, h.2⟩)
  have hs2 : ((ks.insertionSort Date.le).map (fun k => (k, f k))).Pairwise
      bySignupDateStrict := by
    have hsorted := List.sorted_insertionSort Date.le ks
    have hpw : ((ks.insertionSort Date.le).map (fun k => (k, f k))).Pairwise bySignupDate :=
      List.pairwise_map.mpr (hsorted.imp (fun h => h))
    have hne := List.pairwise_map.mp hnd2
    exact (List.Pairwise.and hpw hne).imp (fun h => ⟨h.1, h.2⟩)
  exact List.eq_of_perm_of_sorted (hperm1.trans hperm2.symm) hs1 hs2

/-- C4: the cumulative-revenue series of lines 78-81 equals the sequence the
spec prescribes — restrict to rows with non-null `Signup_Date`, group-sum
revenue per date, sort the pairs ascending by date, then prefix-sum — and it is
computed from the unfiltered dataset: the country/device selections cannot
influence it. -/
theorem cumulative_revenue_refines_spec (df : List Row) (cs1 ds1 cs2 ds2 : List String) :
    daily_revenue df = cumulativeRevenueBySignup df ∧
    (runDashboard df cs1 ds1).map Outputs.cumrev = (runDashboard df cs2 ds2).map Outputs.cumrev := by
  constructor
  · show daily_revenue df = cumulativeRevenueBySignup df
    unfold daily_revenue cumulativeRevenueBySignup revenue_by_signup
    rw [zip_cumsum_runningSum, insertionSort_map_key _ _ (List.nodup_dedup _)]
  · cases df <;> simp [runDashboard]

/-- C6 counterexample: a view whose single row has a null `Device_Type` and
revenue 5 produces an EMPTY by-device revenue breakdown: the null segment value
is dropped by the grouping instead of forming a group of its own. -/
theorem null_segment_dropped_counterexample :
    rowNullDevice.Device_Type = none ∧ rowNullDevice.Total_Revenue_USD = 5 ∧
    rev_device [rowNullDevice] = [] :=
  ⟨rfl, rfl, rfl⟩

/-- C6 (amended): for every view and every segment key (instantiated in the
script at `Device_Type`, `Subscription_Tier` and `Preferred_Game_Mode`), the
revenue breakdown groups the rows by segment value and sums
`Total_Revenue_USD` per group, but rows whose segment value is null are DROPPED
from the grouping rather than forming their own group: deleting them leaves the
breakdown unchanged, and every emitted group is keyed by a non-null segment
value of some row, with the sum taken over exactly the rows carrying that
value. -/
theorem revenue_by_segment_amended (key : Row → Option String) (df : List Row) :
    revenueBySegment key df = revenueBySegment key (df.filter (fun r => (key r).isSome)) ∧
    ∀ p ∈ revenueBySegment key df,
      (∃ r ∈ df, key r = some p.1) ∧
      p.2 = ((df.filter (fun r => key r = some p.1)).map Row.Total_Revenue_USD).sum := by
  constructor
  · unfold revenueBySegment
    rw [filterMap_filter_isSome]
    refine List.map_congr_left (fun k _ => ?_)
    rw [filter_key_filter_isSome]
  · intro p hp
    unfold revenueBySegment at hp
    rcases List.mem_map.mp hp with ⟨k, hk, rfl⟩
    refine ⟨?_, rfl⟩
    have hk2 := (List.mem_insertionSort (· ≤ ·)).mp hk
    rcases List.mem_filterMap.mp (List.mem_dedup.mp hk2) with ⟨r, hr, hkey⟩
    exact ⟨r, hr, hkey⟩

/-- C6 witness: the amended characterization applied to the one concrete group
of a one-record dataset with a non-null device type. -/
theorem revenue_by_segment_amended_witness :
    (∃ r ∈ [rA1], Row.Device_Type r = some "Mobile") ∧
    ((("Mobile" : String), (10 : ℚ)).2 =
      (([rA1].filter (fun r => Row.Device_Type r = some "Mobile")).map
        Row.Total_Revenue_USD).sum) :=
  (revenue_by_segment_amended Row.Device_Type [rA1]).2 ("Mobile", 10) (by
    simp +decide [revenueBySegment, rA1, List.insertionSort, List.orderedInsert,
      List.dedup_cons_of_not_mem])

/-- C10: the script body computes nothing at all when the cleaned dataset is
empty — lines 25-26 run `st.stop()`, modelled by the `none` result — and only
an empty dataset triggers that halt. -/
theorem empty_dataset_stops (df : List Row) (cs ds : List String) :
    runDashboard df cs ds = none ↔ df = [] := by
  cases df <;> simp [runDashboard]

end RevenueDashboard
